import Mathlib

/-!
Verification of the ScrapeAll content-acquisition and intelligence pipeline.

The data model follows the TypeScript interfaces of `frontend/lib/types.ts`
(`ScrapeResult`, `ChatMessage`, `FormField`, `DetectedForm`, `UserResponse`);
frontend behaviour follows `frontend/lib/api.ts`, `frontend/app/page.tsx`
(`HomeContent`: `handleScrape`, `handleChat`, `handleExport`) and
`frontend/app/register/page.tsx` (`handleRegister`).  Backend components
(Orchestrator, Retrieval Index, Chat Engine, form detection) are not part of
the reviewed source tree; they are modelled from the contract documented in the specification
(§3, §4.1, §4.3, §4.5, §7) and each such definition is marked
`Modelled from the spec`.
-/

namespace ScrapeAll

/-- One field of a detected form, after `FormField` in `frontend/lib/types.ts`. -/
structure FormField where
  fieldType : String
  name : String
  fieldId : Option String
  placeholder : Option String
  required : Bool
  value : Option String
  options : Option (List (String × String))
deriving DecidableEq, Repr

/-- A detected form, after `DetectedForm` in `frontend/lib/types.ts`. -/
structure DetectedForm where
  formIndex : Nat
  action : String
  method : String
  fields : List FormField
deriving DecidableEq, Repr

/-- Persisted scrape outcome, after `ScrapeResult` in `frontend/lib/types.ts`.
`entities`, `topics` and `error_message` are the optional fields of the interface;
the entity map `Record string (string list)` is modelled as an association
list. -/
structure ScrapeResult where
  id : Nat
  project_id : Nat
  url : String
  status : String
  summary : String
  key_points : List String
  entities : Option (List (String × List String))
  topics : Option (List String)
  scrape_method : String
  ai_provider : String
  error_message : Option String
  created_at : String
deriving DecidableEq, Repr

/-- A chat message, after `ChatMessage` in `frontend/lib/types.ts` (role is
`user` or `assistant`). -/
structure ChatMsg where
  role : String
  content : String
deriving DecidableEq, Repr

/-- A registered user, after `UserResponse` in `frontend/lib/types.ts`
(projects omitted: not used by the handlers verified here). -/
structure UserR where
  userId : Nat
  email : String
  is_active : Bool
deriving DecidableEq, Repr

/-- A concrete `ScrapeResult`, used to instantiate theorems on sample data. -/
def sampleResult : ScrapeResult :=
  { id := 1, project_id := 1, url := "https://example.com", status := "SUCCESS",
    summary := "Example Domain summary.", key_points := ["point one"],
    entities := none, topics := none, scrape_method := "direct",
    ai_provider := "openai", error_message := none, created_at := "2024-01-01" }

/-! ### `getLatestScrape` (frontend/lib/api.ts)

The axios call either resolves with a body (`ScrapeResult` or JSON `null`,
hence `Option ScrapeResult`), or rejects with an HTTP error response, or
rejects with no response at all (network failure). -/

/-- Outcome of one axios request as observed by the caller. -/
inductive ApiResponse (α : Type) where
  | ok (data : α)
  | httpFailure (status : Nat)
  | networkFailure
deriving DecidableEq, Repr

/-- Function `getLatestScrape` from `frontend/lib/api.ts`: returns the body on
success; the catch-block returns `null` on a 404 and falls through to
`return null` for every other rejection. -/
def getLatestScrape (resp : ApiResponse (Option ScrapeResult)) : Option ScrapeResult :=
  match resp with
  | .ok d => d
  | .httpFailure status => if status = 404 then none else none
  | .networkFailure => none

/-! ### `handleChat` (frontend/app/page.tsx)

The handler reads `chatInput` and `projectId` from component state, appends
the user message, awaits `chatWithContent`, and appends the assistant reply
(or the fixed failure text when the call rejects). -/

/-- Function `handleChat` from `frontend/app/page.tsx`, as a function from the state
it reads (`chatInput`, `projectId`, `chatHistory`) and the outcome of the
`chatWithContent` call to the resulting `chatHistory`. -/
def handleChat (chatInput : String) (projectId : Option Nat)
    (chatHistory : List ChatMsg) (resp : ApiResponse String) : List ChatMsg :=
  if chatInput = "" ∨ projectId = none then chatHistory
  else
    let withUser := chatHistory ++ [⟨"user", chatInput⟩]
    match resp with
    | .ok answer => withUser ++ [⟨"assistant", answer⟩]
    | .httpFailure _ => withUser ++ [⟨"assistant", "Failed to get response"⟩]
    | .networkFailure => withUser ++ [⟨"assistant", "Failed to get response"⟩]

/-! ### `handleScrape` (frontend/app/page.tsx)

The handler returns immediately when the URL is empty; when a project name
is entered while unauthenticated it shows a confirm dialog, optionally
navigates to `/login`, and returns without contacting the backend; otherwise
it posts to `/api/scrape` via `scrapeWebsite` and updates the result/error
state. -/

/-- One observable effect of a UI event handler, in program order. -/
inductive UiEffect where
  | confirmDialog (message : String)
  | navigate (path : String)
  | scrapeRequest (url projectName selector : String)
  | setLoading (flag : Bool)
  | setErrorState (message : Option String)
  | setResultState (r : ScrapeResult)
  | setProjectIdState (pid : Nat)
deriving DecidableEq, Repr

/-- Outcome of the `scrapeWebsite` post as seen by `handleScrape`:
a resolved body with `success: true`, a resolved body with `success: false`
and an optional `error` string, or a rejected promise with an optional
message. -/
inductive ScrapeApiOutcome where
  | succeeded (r : ScrapeResult)
  | failed (err : Option String)
  | thrown (msg : Option String)
deriving DecidableEq, Repr

/-- Function `handleScrape` from `frontend/app/page.tsx`, as the list of effects it
performs given the state it reads (`url`, `project`, `selector`,
`isAuthenticated`), the answer given to the confirm dialog, and the outcome
of the `scrapeWebsite` call. -/
def handleScrape (url project selector : String) (isAuthenticated : Bool)
    (confirmAccepted : Bool) (resp : ScrapeApiOutcome) : List UiEffect :=
  if url = "" then []
  else if project ≠ "" ∧ isAuthenticated = false then
    .confirmDialog "You must be logged in to save a named project. Go to login?" ::
      (if confirmAccepted then [.navigate "/login"] else [])
  else
    [.setLoading true, .setErrorState none, .scrapeRequest url project selector] ++
      (match resp with
       | .succeeded r => [.setResultState r, .setProjectIdState r.project_id]
       | .failed err => [.setErrorState (some (err.getD "Scraping failed"))]
       | .thrown msg => [.setErrorState (some (msg.getD "Something went wrong"))]) ++
      [.setLoading false]

/-! ### `handleRegister` (frontend/app/register/page.tsx) -/

/-- Outcome of the `/api/auth/register` post: a resolved truthy body, a
resolved falsy body, a 400 rejection carrying an optional `detail`, or any
other rejection. -/
inductive RegisterApiOutcome where
  | okData
  | okNoData
  | badRequest (detail : Option String)
  | otherFailure
deriving DecidableEq, Repr

/-- Outcome of the `/api/auth/login` post made after a successful
registration. -/
inductive LoginApiOutcome where
  | token (accessToken : String) (u : UserR)
  | noToken
  | badRequest (detail : Option String)
  | otherFailure
deriving DecidableEq, Repr

/-- Result of one `handleRegister` run: the final error-banner text, the
endpoints posted in order, and the final authenticated user. -/
structure RegisterRun where
  errorMsg : String
  requests : List String
  currentUser : Option UserR
deriving DecidableEq, Repr

/-- Function `handleRegister` from `frontend/app/register/page.tsx`: clears the
error, rejects mismatched passwords locally, otherwise posts register then
(on a truthy body) login, calling `login(token, user)` when an access token
comes back; 400 rejections surface their `detail` and any other rejection
surfaces a generic message. -/
def handleRegister (password confirmPassword : String) (user0 : Option UserR)
    (reg : RegisterApiOutcome) (log : LoginApiOutcome) : RegisterRun :=
  if password ≠ confirmPassword then
    { errorMsg := "Passwords do not match", requests := [], currentUser := user0 }
  else
    match reg with
    | .okData =>
      match log with
      | .token _ u =>
        { errorMsg := "", requests := ["/api/auth/register", "/api/auth/login"],
          currentUser := some u }
      | .noToken =>
        { errorMsg := "", requests := ["/api/auth/register", "/api/auth/login"],
          currentUser := user0 }
      | .badRequest detail =>
        { errorMsg := detail.getD "Email already registered",
          requests := ["/api/auth/register", "/api/auth/login"], currentUser := user0 }
      | .otherFailure =>
        { errorMsg := "Registration failed. Please try again.",
          requests := ["/api/auth/register", "/api/auth/login"], currentUser := user0 }
    | .okNoData =>
      { errorMsg := "", requests := ["/api/auth/register"], currentUser := user0 }
    | .badRequest detail =>
      { errorMsg := detail.getD "Email already registered",
        requests := ["/api/auth/register"], currentUser := user0 }
    | .otherFailure =>
      { errorMsg := "Registration failed. Please try again.",
        requests := ["/api/auth/register"], currentUser := user0 }

/-! ### Orchestrator (spec §4.1, §4.2, §7)

The backend scraping engine is not part of the reviewed source tree; the
fallback state machine below is modelled from the specification. -/

/-- The three fetcher strategies, in escalation order (spec §4.2). -/
inductive FetchMethod where
  | direct
  | rendered
  | automated
deriving DecidableEq, Repr

/-- Orchestrator states (spec §4.1). -/
inductive OrchState where
  | notStarted
  | tryingStatic
  | tryingRendered
  | tryingAutomated
  | succeededState
  | exhaustedState
deriving DecidableEq, Repr

/-- Typed fetch failures (spec §4.1 and §7): empty content, block/challenge
signature and timeout are recoverable; malformed URL, DNS resolution failure
and HTTP client errors are candidates for fatality. -/
inductive FetchFailure where
  | emptyContent
  | blockedOrChallenge
  | timedOut
  | malformedUrl
  | dnsFailure
  | httpClientError (code : Nat)
deriving DecidableEq, Repr

/-- Modelled from the spec (§4.1): a fatal failure is a malformed URL, a DNS
resolution failure, or an explicit HTTP client error 4xx other than the 429
rate-limit; everything else is recoverable. -/
def FetchFailure.isFatal : FetchFailure → Bool
  | .malformedUrl => true
  | .dnsFailure => true
  | .httpClientError code => decide (400 ≤ code) && decide (code < 500) && decide (code ≠ 429)
  | _ => false

/-- Result of one fetcher attempt (after its bounded in-fetcher retry):
raw rendered markup or a typed failure (spec §4.2). -/
inductive FetchResult where
  | content (markup : String)
  | failure (err : FetchFailure)
deriving DecidableEq, Repr

/-- The behaviour of the configured fetchers on the URL being scraped:
the final outcome each strategy would report for it. -/
def FetchBehavior : Type := FetchMethod → FetchResult

/-- Final orchestrator outcome: the method that succeeded with its markup,
or exhaustion carrying the most recent failure detail (spec §4.1). -/
inductive OrchOutcome where
  | succeeded (method : FetchMethod) (markup : String)
  | exhausted (err : FetchFailure)
deriving DecidableEq, Repr

/-- The state a fetcher attempt runs in (spec §4.1). -/
def methodState : FetchMethod → OrchState
  | .direct => .tryingStatic
  | .rendered => .tryingRendered
  | .automated => .tryingAutomated

/-- Modelled from the spec (§4.1): empty content counts as a recoverable
failure, so a fetcher that resolves with empty markup is normalized to an
`emptyContent` failure before the escalation decision. -/
def normalizeFetch : FetchResult → FetchResult
  | .content markup => if markup = "" then .failure .emptyContent else .content markup
  | .failure e => .failure e

/-- Modelled from the spec (§4.1): run the remaining fetchers in order,
recording the trying-state entered for each attempt.  A success stops with
`succeeded`; a fatal failure short-circuits to `exhausted` without further
escalation; a recoverable failure escalates to the next fetcher; running out
of fetchers exhausts with the most recent failure. -/
def runFetchers (f : FetchBehavior) (lastErr : FetchFailure) :
    List FetchMethod → List OrchState × OrchOutcome
  | [] => ([], .exhausted lastErr)
  | m :: rest =>
    match normalizeFetch (f m) with
    | .content markup => ([methodState m], .succeeded m markup)
    | .failure e =>
      if e.isFatal then ([methodState m], .exhausted e)
      else
        let next := runFetchers f e rest
        (methodState m :: next.1, next.2)

/-- The escalation order: static, then rendered, then automated (spec §4.1). -/
def tryOrder : List FetchMethod := [.direct, .rendered, .automated]

/-- Modelled from the spec (§4.1): the fetcher phase of `scrape(url)` — try the
fetchers in escalation order and return the visited trying-states together
with the outcome. -/
def orchestrate (f : FetchBehavior) : List OrchState × OrchOutcome :=
  runFetchers f .emptyContent tryOrder

/-! ### ScrapeResult construction (spec §3, §4.4, §7) -/

/-- Provider-agnostic analysis result (spec §4.4). -/
structure AnalysisResult where
  summary : String
  key_points : List String
  entities : Option (List (String × List String))
  topics : Option (List String)
  provider_used : String
deriving DecidableEq, Repr

/-- Modelled from the spec (§7): the human-readable message attached to a
failed scrape for each typed failure. -/
def describeFailure : FetchFailure → String
  | .emptyContent => "The page returned no content"
  | .blockedOrChallenge => "The page blocked automated access"
  | .timedOut => "The request timed out"
  | .malformedUrl => "The URL is malformed"
  | .dnsFailure => "The domain name could not be resolved"
  | .httpClientError _ => "The server rejected the request with a client error"

/-- Modelled from the spec (§3, §4.4, §7): build the persisted
`ScrapeResult` from the orchestrator outcome and the analysis of the
extracted clean text.  An exhausted run yields status `FAILED` with empty
intelligence fields and the failure message; a successful run yields status
`SUCCESS`, falling back to the extracted text itself as a best-effort
summary when the analyzer degraded to an empty summary. -/
def finalizeScrape (rid pid : Nat) (url createdAt cleanText : String)
    (outcome : OrchOutcome) (analysis : AnalysisResult) : ScrapeResult :=
  match outcome with
  | .exhausted err =>
    { id := rid, project_id := pid, url := url, status := "FAILED",
      summary := "", key_points := [], entities := none, topics := none,
      scrape_method := "", ai_provider := "",
      error_message := some (describeFailure err), created_at := createdAt }
  | .succeeded method _ =>
    { id := rid, project_id := pid, url := url, status := "SUCCESS",
      summary := if analysis.summary = "" then cleanText else analysis.summary,
      key_points := analysis.key_points, entities := analysis.entities,
      topics := analysis.topics,
      scrape_method := match method with
        | .direct => "direct"
        | .rendered => "playwright"
        | .automated => "selenium",
      ai_provider := analysis.provider_used, error_message := none,
      created_at := createdAt }

/-- A concrete `AnalysisResult` with a degraded (empty) summary, used to
instantiate theorems on sample data. -/
def sampleAnalysis : AnalysisResult :=
  { summary := "", key_points := [], entities := none, topics := none,
    provider_used := "groq" }

/-- The data-model invariant on a `ScrapeResult` (spec §3): a `FAILED`
result has empty summary, key points and entities and a non-empty error
message; a `SUCCESS` result has a non-empty summary. -/
def scrapeResultInvariant (r : ScrapeResult) : Prop :=
  (r.status = "FAILED" →
    r.summary = "" ∧ r.key_points = []
    ∧ (r.entities = none ∨ r.entities = some [])
    ∧ ∃ msg, r.error_message = some msg ∧ msg ≠ "")
  ∧ (r.status = "SUCCESS" → r.summary ≠ "")

/-! ### Retrieval Index and Chat Engine (spec §3, §4.5)

The backend vector store and chat engine are not part of the reviewed
source tree; they are modelled from the specification. -/

/-- An indexed chunk (spec §3): chunk text, embedding vector, owning
project id and owning scrape-result id. -/
structure IndexChunk where
  text : String
  embedding : List Int
  project_id : Nat
  scrape_result_id : Nat
deriving DecidableEq, Repr

/-- Modelled from the spec (§4.5): the single embedding function used both
at index time and at query time. -/
def embed (s : String) : List Int :=
  s.data.map (fun c => (c.toNat : Int))

/-- Similarity score between a query embedding and a chunk embedding. -/
def dotScore : List Int → List Int → Int
  | x :: xs, y :: ys => x * y + dotScore xs ys
  | _, _ => 0

/-- Number of chunks retrieved per question (the `top-K` of spec §4.5). -/
def retrievalK : Nat := 4

/-- Modelled from the spec (§4.5): retrieve the top-K chunks by similarity,
scoped strictly to `pid` — candidates are filtered to the project before
ranking. -/
def retrieveTopK (store : List IndexChunk) (pid : Nat) (queryEmbedding : List Int)
    (k : Nat) : List IndexChunk :=
  ((store.filter (fun c => c.project_id == pid)).mergeSort
    (fun a b =>
      decide (dotScore queryEmbedding b.embedding ≤ dotScore queryEmbedding a.embedding))).take k

/-- JS `Array.join(sep)`: the elements interleaved with the separator. -/
def joinSep (sep : String) : List String → String
  | [] => ""
  | [x] => x
  | x :: y :: rest => x ++ sep ++ joinSep sep (y :: rest)

/-- Modelled from the spec (§4.5): the grounded prompt composed from the
retrieved chunks, the recent conversation history and the question. -/
def groundedPrompt (chunks : List IndexChunk) (history : List ChatMsg)
    (question : String) : String :=
  "Answer using only the following context.\nContext:\n"
    ++ joinSep "\n" (chunks.map (fun c => c.text))
    ++ "\nConversation so far:\n"
    ++ joinSep "\n" (history.map (fun m => m.role ++ ": " ++ m.content))
    ++ "\nQuestion: " ++ question

/-- Modelled from the spec (§4.5, §7 `RetrievalEmpty`): the fixed answer
returned when a project has no indexed content. -/
def NO_CONTENT_RESPONSE : String :=
  "No content is available for this project yet. Scrape a URL first to chat about it."

/-- Outcome of one chat turn: the answer, whether the language model was
invoked, and the two messages appended to the chat log of the project. -/
structure ChatTurn where
  response : String
  llmInvoked : Bool
  appendedMessages : List ChatMsg
deriving DecidableEq, Repr

/-- Modelled from the spec (§4.5): `ask(project_id, question)` — when the
project has no indexed chunks, answer with the fixed no-content response
without invoking the language model; otherwise ground the model in the
top-K chunks retrieved for the project and the conversation history.  Both
the question and the answer are appended to the chat log of the project. -/
def chatAsk (store : List IndexChunk) (history : List ChatMsg)
    (llm : String → String) (pid : Nat) (question : String) : ChatTurn :=
  if (store.filter (fun c => c.project_id == pid)).isEmpty then
    { response := NO_CONTENT_RESPONSE, llmInvoked := false,
      appendedMessages := [⟨"user", question⟩, ⟨"assistant", NO_CONTENT_RESPONSE⟩] }
  else
    let answer := llm (groundedPrompt (retrieveTopK store pid (embed question) retrievalK)
      history question)
    { response := answer, llmInvoked := true,
      appendedMessages := [⟨"user", question⟩, ⟨"assistant", answer⟩] }

/-! ### Export surface (frontend/app/page.tsx `handleExport`; spec §6)

With format `json`, `handleExport` serializes the current `ScrapeResult`
with `JSON.stringify`; with format `markdown` it renders the narrative
template.
The structured export is modelled at the level of the JSON document the
serializer emits (`JSON.stringify`/`JSON.parse` are the standard faithful
rendering of this document to text). -/

/-- A JSON document. -/
inductive Json where
  | jnull
  | jstr (s : String)
  | jnum (n : Int)
  | jbool (b : Bool)
  | jarr (elems : List Json)
  | jobj (fields : List (String × Json))
deriving Repr

/-- A JS string array as JSON. -/
def encodeStrList (xs : List String) : Json :=
  .jarr (xs.map .jstr)

/-- A JS `Record<string, string[]>` as JSON. -/
def encodeEntities (m : List (String × List String)) : Json :=
  .jobj (m.map fun kv => (kv.1, encodeStrList kv.2))

/-- Encoding of a result by `JSON.stringify`, as a JSON document: every present field of the
`ScrapeResult` interface in declaration order; absent optional fields
(`undefined` in JS) are omitted. -/
def scrapeResultToJson (r : ScrapeResult) : Json :=
  .jobj
    ([("id", .jnum (r.id : Int)), ("project_id", .jnum (r.project_id : Int)),
      ("url", .jstr r.url), ("status", .jstr r.status),
      ("summary", .jstr r.summary), ("key_points", encodeStrList r.key_points)]
      ++ (match r.entities with
          | none => []
          | some m => [("entities", encodeEntities m)])
      ++ (match r.topics with
          | none => []
          | some t => [("topics", encodeStrList t)])
      ++ [("scrape_method", .jstr r.scrape_method), ("ai_provider", .jstr r.ai_provider)]
      ++ (match r.error_message with
          | none => []
          | some e => [("error_message", .jstr e)])
      ++ [("created_at", .jstr r.created_at)])

/-- Decode a JSON string. -/
def decodeStr : Json → Option String
  | .jstr s => some s
  | _ => none

/-- Decode a non-negative JSON number. -/
def decodeNat : Json → Option Nat
  | .jnum n => if n < 0 then none else some n.toNat
  | _ => none

/-- Decode every element of a JSON array as a string. -/
def decodeStrAll : List Json → Option (List String)
  | [] => some []
  | j :: rest => do
    let s ← decodeStr j
    let t ← decodeStrAll rest
    some (s :: t)

/-- Decode a JSON array of strings. -/
def decodeStrList : Json → Option (List String)
  | .jarr elems => decodeStrAll elems
  | _ => none

/-- Decode every field of a JSON object as a string array. -/
def decodeEntityAll : List (String × Json) → Option (List (String × List String))
  | [] => some []
  | kv :: rest => do
    let v ← decodeStrList kv.2
    let t ← decodeEntityAll rest
    some ((kv.1, v) :: t)

/-- Decode a JSON object of string arrays. -/
def decodeEntities : Json → Option (List (String × List String))
  | .jobj fields => decodeEntityAll fields
  | _ => none

/-- Look up a required field of a JSON object. -/
def getField (fields : List (String × Json)) (k : String) : Option Json :=
  List.lookup k fields

/-- Look up an optional field of a JSON object: an absent field decodes to
`none`, a present one must decode. -/
def getOptField {α : Type} (fields : List (String × Json)) (k : String)
    (dec : Json → Option α) : Option (Option α) :=
  match List.lookup k fields with
  | none => some none
  | some j => (dec j).map some

/-- Parsing of an exported document back into the `ScrapeResult`
interface, as `JSON.parse` does. -/
def scrapeResultFromJson : Json → Option ScrapeResult
  | .jobj fields => do
    let rid ← getField fields "id" >>= decodeNat
    let pid ← getField fields "project_id" >>= decodeNat
    let url ← getField fields "url" >>= decodeStr
    let status ← getField fields "status" >>= decodeStr
    let summary ← getField fields "summary" >>= decodeStr
    let keyPoints ← getField fields "key_points" >>= decodeStrList
    let entities ← getOptField fields "entities" decodeEntities
    let topics ← getOptField fields "topics" decodeStrList
    let scrapeMethod ← getField fields "scrape_method" >>= decodeStr
    let aiProvider ← getField fields "ai_provider" >>= decodeStr
    let errorMessage ← getOptField fields "error_message" decodeStr
    let createdAt ← getField fields "created_at" >>= decodeStr
    some { id := rid, project_id := pid, url := url, status := status,
           summary := summary, key_points := keyPoints, entities := entities,
           topics := topics, scrape_method := scrapeMethod,
           ai_provider := aiProvider, error_message := errorMessage,
           created_at := createdAt }
  | _ => none

/-- The narrative (markdown) export of `handleExport` in
`frontend/app/page.tsx`: title from the first 50 characters of the summary,
then source URL, date, full summary and the key points as `- ` bullets
joined by newlines. -/
def exportMarkdown (r : ScrapeResult) : String :=
  "# " ++ r.summary.take 50 ++ "...\n\n"
    ++ "**Source**: " ++ r.url ++ "\n"
    ++ "**Date**: " ++ r.created_at ++ "\n\n"
    ++ "## Summary\n" ++ r.summary ++ "\n\n"
    ++ "## Key Points\n" ++ joinSep "\n" (r.key_points.map (fun p => "- " ++ p)) ++ "\n"

/-- The export payload: the downloaded document. -/
inductive ExportContent where
  | jsonDoc (doc : Json)
  | markdownDoc (text : String)

/-- Function `handleExport` from `frontend/app/page.tsx`, as a function of the
`result` state it reads: it returns early with no download when there is no
result, and otherwise emits the chosen projection under the
`scrape-<id>.<ext>` filename, leaving the `result` state untouched. -/
def handleExport (result : Option ScrapeResult) (isJson : Bool) :
    Option ScrapeResult × Option (String × ExportContent) :=
  match result with
  | none => (result, none)
  | some r =>
    (result,
     some (if isJson then ("scrape-" ++ toString r.id ++ ".json", .jsonDoc (scrapeResultToJson r))
           else ("scrape-" ++ toString r.id ++ ".md", .markdownDoc (exportMarkdown r))))

/-! ### Form detection (spec §4.3)

The backend `detectForms` endpoint is not part of the reviewed source tree;
form detection is modelled from the specification.  Page markup is taken as
its sequence of elements in document order. -/

/-- An element of the page markup, in document order: a `<form>`-equivalent
element with its action, HTTP method and fields, or any other element. -/
inductive PageNode where
  | formNode (action method : String) (fields : List FormField)
  | otherNode (tag : String)
deriving DecidableEq, Repr

/-- Modelled from the spec (§4.3): enumerate the `<form>`-equivalent
elements of the markup in document order, numbering them from `i`. -/
def detectFormsAux : Nat → List PageNode → List DetectedForm
  | _, [] => []
  | i, .formNode action method fields :: rest =>
    ⟨i, action, method, fields⟩ :: detectFormsAux (i + 1) rest
  | i, .otherNode _ :: rest => detectFormsAux i rest

/-- Modelled from the spec (§4.3): `detectForms` over unchanged markup —
all form elements, in document order, numbered from 0. -/
def detectForms (doc : List PageNode) : List DetectedForm :=
  detectFormsAux 0 doc

/-- The form elements of the markup in document order (the reference
enumeration the detector must follow). -/
def formsInDocumentOrder (doc : List PageNode) : List (String × String × List FormField) :=
  doc.filterMap fun n =>
    match n with
    | .formNode action method fields => some (action, method, fields)
    | .otherNode _ => none

/-- A chunk owned by project 1, used to instantiate theorems. -/
def chunkA : IndexChunk :=
  { text := "alpha text", embedding := [1, 0], project_id := 1, scrape_result_id := 10 }

/-- A chunk owned by project 2, used to instantiate theorems. -/
def chunkB : IndexChunk :=
  { text := "beta text", embedding := [0, 1], project_id := 2, scrape_result_id := 20 }

end ScrapeAll

namespace ScrapeAll

/-- C7: `getLatestScrape` is total — it yields a `ScrapeResult` or `null`
(`Option`) on every possible request outcome and never re-throws: a 404
(and in fact any rejection) yields `null`, and a resolved call yields its
body. -/
theorem getLatestScrape_total_and_404_null :
    getLatestScrape (.httpFailure 404) = none
    ∧ (∀ status : Nat, getLatestScrape (.httpFailure status) = none)
    ∧ getLatestScrape .networkFailure = none
    ∧ (∀ d : Option ScrapeResult, getLatestScrape (.ok d) = d) := by
  refine ⟨rfl, fun status => ?_, rfl, fun d => rfl⟩
  simp [getLatestScrape]

/-- C5: a chat turn with a non-empty input and a selected project appends
exactly two messages — the user question then the assistant answer — and
leaves every message already in the history unchanged (the new history is
the old history plus the two messages). -/
theorem handleChat_appends_two_messages (chatInput : String) (projectId : Option Nat)
    (chatHistory : List ChatMsg) (resp : ApiResponse String)
    (hinput : chatInput ≠ "") (hpid : projectId ≠ none) :
    ∃ answer : String,
      handleChat chatInput projectId chatHistory resp
        = chatHistory ++ [⟨"user", chatInput⟩, ⟨"assistant", answer⟩] := by
  unfold handleChat
  rw [if_neg (by simp [hinput, hpid])]
  cases resp with
  | ok answer => exact ⟨answer, by simp⟩
  | httpFailure s => exact ⟨"Failed to get response", by simp⟩
  | networkFailure => exact ⟨"Failed to get response", by simp⟩

/-- Witness for C5: a concrete chat turn appends the question and the
answer to a one-message history. -/
theorem handleChat_appends_two_messages_witness :
    ∃ answer : String,
      handleChat "What is the pricing model?" (some 7)
          [⟨"assistant", "hello"⟩] (.ok "See the pricing page.")
        = [⟨"assistant", "hello"⟩] ++
          [⟨"user", "What is the pricing model?"⟩, ⟨"assistant", answer⟩] :=
  handleChat_appends_two_messages "What is the pricing model?" (some 7)
    [⟨"assistant", "hello"⟩] (.ok "See the pricing page.")
    (by decide) (by decide)

/-- C9: naming a project while unauthenticated never contacts the scrape
endpoint — no `scrapeRequest` effect is performed — and the only navigation
the handler may perform is the redirect to `/login`. -/
theorem handleScrape_unauthenticated_no_request (url project selector : String)
    (isAuthenticated confirmAccepted : Bool) (resp : ScrapeApiOutcome)
    (hproject : project ≠ "") (hauth : isAuthenticated = false) :
    (∀ u p s, UiEffect.scrapeRequest u p s ∉
        handleScrape url project selector isAuthenticated confirmAccepted resp)
    ∧ (∀ path, UiEffect.navigate path ∈
          handleScrape url project selector isAuthenticated confirmAccepted resp →
        path = "/login") := by
  unfold handleScrape
  by_cases hurl : url = ""
  · simp [hurl]
  · rw [if_neg hurl, if_pos ⟨hproject, hauth⟩]
    constructor
    · intro u p s hmem
      rcases List.mem_cons.mp hmem with h | h
      · exact UiEffect.noConfusion h
      · by_cases hc : confirmAccepted = true
        · simp [hc] at h
        · simp [Bool.eq_false_iff.mpr hc] at h
    · intro path hmem
      rcases List.mem_cons.mp hmem with h | h
      · exact UiEffect.noConfusion h
      · by_cases hc : confirmAccepted = true
        · simp [hc] at h
          exact h
        · simp [Bool.eq_false_iff.mpr hc] at h

/-- Witness for C9: with a named project, no authentication and an accepted
confirm dialog, the handler performs no scrape request and only navigates to
`/login`. -/
theorem handleScrape_unauthenticated_no_request_witness :
    (∀ u p s, UiEffect.scrapeRequest u p s ∉
        handleScrape "https://example.com" "My Project" "" false true
          (.succeeded sampleResult))
    ∧ (∀ path, UiEffect.navigate path ∈
          handleScrape "https://example.com" "My Project" "" false true
            (.succeeded sampleResult) →
        path = "/login") :=
  handleScrape_unauthenticated_no_request "https://example.com" "My Project" ""
    false true (.succeeded sampleResult) (by decide) rfl

/-- C10: when the password and confirm fields differ, `handleRegister`
posts nothing, leaves the authenticated user unchanged, and sets the error
banner to "Passwords do not match". -/
theorem handleRegister_mismatch_atomic (password confirmPassword : String)
    (user0 : Option UserR) (reg : RegisterApiOutcome) (log : LoginApiOutcome)
    (hne : password ≠ confirmPassword) :
    handleRegister password confirmPassword user0 reg log
      = { errorMsg := "Passwords do not match", requests := [], currentUser := user0 } := by
  unfold handleRegister
  rw [if_pos hne]

/-- Witness for C10: a concrete mismatched submission sends no requests,
keeps the user logged out, and reports the mismatch. -/
theorem handleRegister_mismatch_atomic_witness :
    handleRegister "hunter22" "hunter2" none .okData
        (.token "tok" { userId := 1, email := "a@b.c", is_active := true })
      = { errorMsg := "Passwords do not match", requests := [], currentUser := none } :=
  handleRegister_mismatch_atomic "hunter22" "hunter2" none .okData
    (.token "tok" { userId := 1, email := "a@b.c", is_active := true })
    (by decide)

/-- C2: in the fallback state machine of the Orchestrator, a fetcher reporting a
fatal failure short-circuits to `EXHAUSTED` — the visited states stop at the
current attempt, so no later fetcher is attempted — and a URL the direct
fetcher serves successfully (non-empty markup) ends the run with
`TRYING_STATIC` as the only visited trying-state. -/
theorem orchestrator_fatal_short_circuit (f : FetchBehavior) :
    (∀ (m : FetchMethod) (rest : List FetchMethod) (lastErr e : FetchFailure),
        f m = .failure e → e.isFatal = true →
        runFetchers f lastErr (m :: rest) = ([methodState m], .exhausted e))
    ∧ (∀ markup : String, f .direct = .content markup → markup ≠ "" →
        orchestrate f = ([.tryingStatic], .succeeded .direct markup)) := by
  constructor
  · intro m rest lastErr e hf hfatal
    simp [runFetchers, hf, normalizeFetch, hfatal]
  · intro markup hf hne
    simp [orchestrate, tryOrder, runFetchers, hf, normalizeFetch, hne, methodState]

/-- Witness for C2: a fetcher chain whose every strategy reports a
malformed URL stops after the static attempt, and a chain whose direct
fetcher serves markup succeeds without leaving `TRYING_STATIC`. -/
theorem orchestrator_fatal_short_circuit_witness :
    runFetchers (fun _ => .failure .malformedUrl) .emptyContent
        [.direct, .rendered, .automated]
      = ([.tryingStatic], .exhausted .malformedUrl)
    ∧ orchestrate (fun _ => .content "<html>ok</html>")
      = ([.tryingStatic], .succeeded .direct "<html>ok</html>") :=
  ⟨(orchestrator_fatal_short_circuit (fun _ => .failure .malformedUrl)).1
      .direct [.rendered, .automated] .emptyContent .malformedUrl rfl rfl,
   (orchestrator_fatal_short_circuit (fun _ => .content "<html>ok</html>")).2
      "<html>ok</html>" rfl (by decide)⟩

/-- C1: every `ScrapeResult` the pipeline persists satisfies the data-model
invariant: an exhausted run yields `FAILED` with empty summary, key points
and entities and a non-empty error message, and a successful run yields
`SUCCESS` with a non-empty summary (the orchestrator only succeeds with
non-empty content, so the extracted clean text is non-empty). -/
theorem finalizeScrape_invariant (rid pid : Nat) (url createdAt cleanText : String)
    (outcome : OrchOutcome) (analysis : AnalysisResult) (hclean : cleanText ≠ "") :
    scrapeResultInvariant (finalizeScrape rid pid url createdAt cleanText outcome analysis) := by
  cases outcome with
  | exhausted err =>
    refine ⟨fun _ => ⟨rfl, rfl, Or.inl rfl, describeFailure err, rfl, ?_⟩, fun h => ?_⟩
    · cases err <;> simp [describeFailure]
    · exact absurd h (by simp [finalizeScrape])
  | succeeded method markup =>
    refine ⟨fun h => ?_, fun _ => ?_⟩
    · exact absurd h (by simp [finalizeScrape])
    · show (if analysis.summary = "" then cleanText else analysis.summary) ≠ ""
      by_cases ha : analysis.summary = ""
      · simpa [ha] using hclean
      · simp [ha]

/-- Witness for C1: a concrete exhausted run (all fetchers timed out, the
analyzer degraded) produces a `ScrapeResult` satisfying the invariant. -/
theorem finalizeScrape_invariant_witness :
    scrapeResultInvariant
      (finalizeScrape 1 1 "https://example.com" "2024-01-01" "Example Domain text"
        (.exhausted .timedOut) sampleAnalysis) :=
  finalizeScrape_invariant 1 1 "https://example.com" "2024-01-01" "Example Domain text"
    (.exhausted .timedOut) sampleAnalysis (by decide)

/-- C3: retrieval is strictly scoped — every chunk returned by
`retrieveTopK` for a project id is owned by that project, so for distinct
projects A and B no chunk of B is ever returned (or passed to the grounded
prompt) for A. -/
theorem retrieveTopK_project_isolation (store : List IndexChunk) (pid : Nat)
    (queryEmbedding : List Int) (k : Nat) (c : IndexChunk)
    (hmem : c ∈ retrieveTopK store pid queryEmbedding k) :
    c.project_id = pid := by
  have h1 := List.mem_of_mem_take hmem
  have h2 := List.mem_mergeSort.mp h1
  have h3 := (List.mem_filter.mp h2).2
  simpa using h3

/-- Witness for C3: with chunks of projects 1 and 2 in the store, a
retrieval scoped to project 1 contains `chunkA`, whose owner is 1. -/
theorem retrieveTopK_project_isolation_witness :
    chunkA ∈ retrieveTopK [chunkA, chunkB] 1 [1, 1] 3 ∧ chunkA.project_id = 1 :=
  ⟨by simp [retrieveTopK, chunkA, chunkB],
   retrieveTopK_project_isolation [chunkA, chunkB] 1 [1, 1] 3 chunkA
     (by simp [retrieveTopK, chunkA, chunkB])⟩

/-- C4: for a project with zero indexed chunks, every question yields the
same fixed no-content chat turn and the language model is not invoked — the
result does not depend on the question text or on the model. -/
theorem chatAsk_no_content_fixed (store : List IndexChunk) (history : List ChatMsg)
    (llm : String → String) (pid : Nat) (question : String)
    (hempty : store.filter (fun c => c.project_id == pid) = []) :
    chatAsk store history llm pid question
      = { response := NO_CONTENT_RESPONSE, llmInvoked := false,
          appendedMessages := [⟨"user", question⟩, ⟨"assistant", NO_CONTENT_RESPONSE⟩] } := by
  simp [chatAsk, hempty]

/-- Witness for C4: a store holding only project 2 content answers a
project 1 question with the fixed no-content response, without calling the
model. -/
theorem chatAsk_no_content_fixed_witness :
    chatAsk [chunkB] [] (fun _ => "model answer") 1 "What is the pricing model?"
      = { response := NO_CONTENT_RESPONSE, llmInvoked := false,
          appendedMessages := [⟨"user", "What is the pricing model?"⟩,
            ⟨"assistant", NO_CONTENT_RESPONSE⟩] } :=
  chatAsk_no_content_fixed [chunkB] [] (fun _ => "model answer") 1
    "What is the pricing model?" (by decide)

/-- The detector numbers forms consecutively from its starting index and
lists them in document order. -/
theorem detectFormsAux_spec (doc : List PageNode) (i : Nat) :
    (detectFormsAux i doc).map (fun f => (f.action, f.method, f.fields))
      = formsInDocumentOrder doc
    ∧ (detectFormsAux i doc).map DetectedForm.formIndex
      = (List.range (formsInDocumentOrder doc).length).map (· + i) := by
  induction doc generalizing i with
  | nil => simp [detectFormsAux, formsInDocumentOrder]
  | cons n rest ih =>
    cases n with
    | formNode action method fields =>
      refine ⟨?_, ?_⟩
      · simp [detectFormsAux, formsInDocumentOrder, (ih (i + 1)).1]
      · simp only [detectFormsAux, List.map_cons, formsInDocumentOrder,
          List.filterMap_cons, List.length_cons, (ih (i + 1)).2,
          List.range_succ_eq_map, List.map_map]
        have hfun : ((fun x => x + i) ∘ Nat.succ) = (fun x => x + (i + 1)) := by
          funext x
          simp only [Function.comp_apply, Nat.succ_eq_add_one]
          omega
        rw [hfun]
        simp
    | otherNode tag =>
      refine ⟨?_, ?_⟩
      · simp [detectFormsAux, formsInDocumentOrder, (ih i).1]
      · simp [detectFormsAux, formsInDocumentOrder, (ih i).2]

/-- Decoding inverts encoding for string arrays. -/
theorem decodeStrList_encodeStrList (xs : List String) :
    decodeStrList (encodeStrList xs) = some xs := by
  have h : ∀ l : List String, decodeStrAll (l.map Json.jstr) = some l := by
    intro l
    induction l with
    | nil => rfl
    | cons x t ih => simp [decodeStrAll, decodeStr, ih]
  simp [encodeStrList, decodeStrList, h]

/-- Decoding inverts encoding for entity maps. -/
theorem decodeEntities_encodeEntities (m : List (String × List String)) :
    decodeEntities (encodeEntities m) = some m := by
  induction m with
  | nil => rfl
  | cons kv t ih =>
    have ih' : decodeEntityAll (t.map fun kv => (kv.1, encodeStrList kv.2)) = some t := by
      simpa [encodeEntities, decodeEntities] using ih
    simp [encodeEntities, decodeEntities, decodeEntityAll,
      decodeStrList_encodeStrList, ih']

/-- Every element of a joined list appears verbatim in the joined string. -/
theorem joinSep_exists_parts (sep : String) (f : String → String) (ps : List String)
    (p : String) (hmem : p ∈ ps) :
    ∃ pre post, joinSep sep (ps.map f) = pre ++ f p ++ post := by
  induction ps with
  | nil => cases hmem
  | cons q t ih =>
    rcases List.mem_cons.mp hmem with h | h
    · subst h
      cases t with
      | nil => exact ⟨"", "", by simp [joinSep]⟩
      | cons u v =>
        refine ⟨"", sep ++ joinSep sep ((u :: v).map f), ?_⟩
        simp [joinSep, String.append_assoc]
    · rcases ih h with ⟨pre, post, heq⟩
      cases t with
      | nil => cases h
      | cons u v =>
        refine ⟨f q ++ sep ++ pre, post, ?_⟩
        simp only [List.map_cons, joinSep] at heq ⊢
        rw [heq]
        simp [String.append_assoc]

/-- C6: the structured export is lossless — parsing the exported JSON
document yields the original `ScrapeResult` — and both exports are pure
projections: `handleExport` leaves the result state unchanged, and the
narrative export contains the summary, the source URL and every key point
verbatim. -/
theorem scrapeResult_export_lossless_and_pure (r : ScrapeResult) :
    scrapeResultFromJson (scrapeResultToJson r) = some r
    ∧ (∀ (st : Option ScrapeResult) (isJson : Bool), (handleExport st isJson).1 = st)
    ∧ (∃ pre post, exportMarkdown r = pre ++ r.summary ++ post)
    ∧ (∃ pre post, exportMarkdown r = pre ++ r.url ++ post)
    ∧ (∀ p ∈ r.key_points, ∃ pre post, exportMarkdown r = pre ++ ("- " ++ p) ++ post) := by
  refine ⟨?_, ?_, ?_, ?_, ?_⟩
  · have hnat : ∀ (n : Nat) (x : Option Nat), (if ((n : Int) < 0) then x else some n) = some n := by
      intro n x
      exact if_neg (not_lt.mpr (Int.natCast_nonneg n))
    rcases r with ⟨rid, pid, url, status, summary, kps, ents, tops, sm, ap, em, ca⟩
    cases ents <;> cases tops <;> cases em <;>
      simp [scrapeResultToJson, scrapeResultFromJson, getField, getOptField,
        List.lookup, decodeNat, decodeStr, decodeStrList_encodeStrList,
        decodeEntities_encodeEntities, hnat]
  · intro st isJson
    cases st <;> rfl
  · refine ⟨"# " ++ r.summary.take 50 ++ "...\n\n" ++ "**Source**: " ++ r.url ++ "\n"
      ++ "**Date**: " ++ r.created_at ++ "\n\n" ++ "## Summary\n",
      "\n\n" ++ "## Key Points\n"
        ++ joinSep "\n" (r.key_points.map (fun p => "- " ++ p)) ++ "\n", ?_⟩
    simp [exportMarkdown, String.append_assoc]
  · refine ⟨"# " ++ r.summary.take 50 ++ "...\n\n" ++ "**Source**: ",
      "\n" ++ "**Date**: " ++ r.created_at ++ "\n\n" ++ "## Summary\n" ++ r.summary
        ++ "\n\n" ++ "## Key Points\n"
        ++ joinSep "\n" (r.key_points.map (fun p => "- " ++ p)) ++ "\n", ?_⟩
    simp [exportMarkdown, String.append_assoc]
  · intro p hp
    rcases joinSep_exists_parts "\n" (fun q => "- " ++ q) r.key_points p hp with
      ⟨pre0, post0, heq⟩
    refine ⟨"# " ++ r.summary.take 50 ++ "...\n\n" ++ "**Source**: " ++ r.url ++ "\n"
      ++ "**Date**: " ++ r.created_at ++ "\n\n" ++ "## Summary\n" ++ r.summary
      ++ "\n\n" ++ "## Key Points\n" ++ pre0, post0 ++ "\n", ?_⟩
    simp [exportMarkdown, heq, String.append_assoc]

/-- Witness for C6: the export of a concrete result parses back to it, and
its markdown contains the key point of the result verbatim. -/
theorem scrapeResult_export_lossless_and_pure_witness :
    scrapeResultFromJson (scrapeResultToJson sampleResult) = some sampleResult
    ∧ ∃ pre post, exportMarkdown sampleResult = pre ++ ("- " ++ "point one") ++ post :=
  ⟨(scrapeResult_export_lossless_and_pure sampleResult).1,
   (scrapeResult_export_lossless_and_pure sampleResult).2.2.2.2 "point one"
     (by simp [sampleResult])⟩

/-- C8: `detectForms` is deterministic and idempotent on unchanged markup —
re-running it yields the identical ordered list — and it enumerates the
form elements of the page in document order, with form indices 0, 1, 2, …. -/
theorem detectForms_deterministic_document_order (doc : List PageNode) :
    detectForms doc = detectForms doc
    ∧ (detectForms doc).map (fun f => (f.action, f.method, f.fields))
      = formsInDocumentOrder doc
    ∧ (detectForms doc).map DetectedForm.formIndex
      = List.range (detectForms doc).length := by
  refine ⟨rfl, (detectFormsAux_spec doc 0).1, ?_⟩
  have hlen : (detectForms doc).length = (formsInDocumentOrder doc).length := by
    have := congrArg List.length (detectFormsAux_spec doc 0).1
    simpa [detectForms] using this
  rw [hlen]
  simpa [detectForms] using (detectFormsAux_spec doc 0).2

end ScrapeAll
